import Mathlib

/-!
Shallow embedding of the SocialRPG resolution and state-mutation engine
(source files `Introvert_rpg.py` and `npc_types.py`).

Modelling conventions:
* Python `int` is modelled by `Int`, counters that the code only ever
  increments from zero by `Nat`.
* Python `float` values in this code base are exact decimal constants
  combined by `+`, `*`, comparisons; they are modelled by `ℚ`.
* Python strings that are only compared by case-insensitive substring
  containment are modelled by `List Char` with `Char.toLower` and
  `List.isInfixOf`; display-only strings stay `String`.
* Every call to the global random source is replaced by an explicit
  draw parameter, so each engine function is a pure function of the
  state and its draws.
* `random.randint(a, b)` raises `ValueError` when `b < a`; that
  partiality is modelled by `randint : Int → Int → Int → Option Int`
  in the `Py`-suffixed functions, which return `none` where the source
  raises.  The `applyOutcomeWith` function models the state-mutation
  sequence with the sampled delta values passed in directly.
-/

namespace SocialRPG

/-- `AttractionLevel` enum of `Introvert_rpg.py`. -/
inductive AttractionLevel where
  | neutral
  | platonic
  | romantic
deriving DecidableEq, Repr

/-- `RiskLevel` enum of `Introvert_rpg.py`. -/
inductive RiskLevel where
  | safe
  | moderate
  | risky
  | very_risky
deriving DecidableEq, Repr

/-- `ExchangeOutcome` enum of `Introvert_rpg.py`. -/
inductive ExchangeOutcome where
  | very_positive
  | positive
  | neutral
  | negative
  | failed
deriving DecidableEq, Repr

/-- `NPCRole` enum of `npc_types.py`. -/
inductive NPCRole where
  | service_worker
  | professional
  | social
  | stranger
  | leisure
  | neighbor
  | regular
deriving DecidableEq, Repr

/-- `PersonalityArchetype` enum of `npc_types.py`. -/
inductive PersonalityArchetype where
  | extrovert
  | introvert
  | skeptic
  | enthusiast
  | balanced
deriving DecidableEq, Repr

/-- `SocialContext` enum of `npc_types.py`. -/
inductive SocialContext where
  | task_focused
  | leisure
  | trapped
  | working
  | socializing
deriving DecidableEq, Repr

/-- `NPCTypeModifiers` dataclass of `npc_types.py`, with the dataclass
field defaults reproduced by `default` below. -/
structure NPCTypeModifiers where
  base_receptiveness : ℚ := 2
  base_bond : ℚ := 0
  conversation_patience : ℚ := 1
  time_pressure : Bool := false
  domain_boost : ℚ := 0
  battery_drain_multiplier : ℚ := 1
  carries_conversation : Bool := false
  comfortable_silence : Bool := false
  critical_of_flirting : Bool := false
  enthusiastic_about_interests : Bool := false
  failure_tolerance_modifier : Int := 0
  exits_gracefully : Bool := true
deriving DecidableEq, Repr

/-- `NPCTypeSystem.get_role_modifiers`. -/
def get_role_modifiers : NPCRole → NPCTypeModifiers
  | .service_worker =>
      { base_receptiveness := 1.5
        conversation_patience := 0.7
        time_pressure := true
        battery_drain_multiplier := 1.2
        failure_tolerance_modifier := -1
        exits_gracefully := true }
  | .professional =>
      { base_receptiveness := 2
        conversation_patience := 1
        domain_boost := 0.2
        battery_drain_multiplier := 1.1
        failure_tolerance_modifier := 0
        exits_gracefully := true }
  | .social =>
      { base_receptiveness := 2.5
        conversation_patience := 1.2
        time_pressure := false
        battery_drain_multiplier := 1.3
        failure_tolerance_modifier := 1
        exits_gracefully := true }
  | .stranger =>
      { base_receptiveness := 1
        conversation_patience := 0.6
        time_pressure := true
        battery_drain_multiplier := 1.4
        failure_tolerance_modifier := -1
        exits_gracefully := false }
  | .leisure =>
      { base_receptiveness := 2.2
        conversation_patience := 1.1
        time_pressure := false
        battery_drain_multiplier := 0.9
        failure_tolerance_modifier := 1
        exits_gracefully := true }
  | .neighbor =>
      { base_receptiveness := 2
        base_bond := 0.25
        conversation_patience := 1
        time_pressure := false
        battery_drain_multiplier := 0.9
        failure_tolerance_modifier := 1
        exits_gracefully := true }
  | .regular =>
      { base_receptiveness := 1.8
        base_bond := 0.5
        conversation_patience := 0.9
        time_pressure := false
        battery_drain_multiplier := 1
        failure_tolerance_modifier := 0
        exits_gracefully := true }

/-- `NPCTypeSystem.get_archetype_modifiers`. -/
def get_archetype_modifiers : PersonalityArchetype → NPCTypeModifiers
  | .extrovert =>
      { base_receptiveness := 2.5
        conversation_patience := 1.3
        carries_conversation := true
        battery_drain_multiplier := 1.4
        failure_tolerance_modifier := 2
        exits_gracefully := true }
  | .introvert =>
      { base_receptiveness := 1.8
        conversation_patience := 1
        comfortable_silence := true
        battery_drain_multiplier := 0.7
        failure_tolerance_modifier := 0
        exits_gracefully := true }
  | .skeptic =>
      { base_receptiveness := 1.3
        conversation_patience := 0.8
        critical_of_flirting := true
        battery_drain_multiplier := 1.2
        failure_tolerance_modifier := -1
        exits_gracefully := false }
  | .enthusiast =>
      { base_receptiveness := 2.3
        conversation_patience := 1.2
        domain_boost := 0.3
        enthusiastic_about_interests := true
        battery_drain_multiplier := 1.3
        failure_tolerance_modifier := 1
        exits_gracefully := true }
  | .balanced =>
      { base_receptiveness := 2
        conversation_patience := 1
        battery_drain_multiplier := 1
        failure_tolerance_modifier := 0
        exits_gracefully := true }

/-- Draws consumed by the `SocialContext.TRAPPED` branch of
`get_context_modifiers`: the source calls `random.choice([1.5, 2.5])`,
`random.choice([0.7, 1.1])` and `random.choice([-1, 1])` at lookup time. -/
structure TrappedDraws where
  recep : ℚ
  patience : ℚ
  tol : Int
deriving DecidableEq, Repr

/-- `NPCTypeSystem.get_context_modifiers`; the embedded randomness of the
`trapped` branch is supplied through `td`. -/
def get_context_modifiers (c : SocialContext) (td : TrappedDraws) : NPCTypeModifiers :=
  match c with
  | .task_focused =>
      { base_receptiveness := 1.7
        conversation_patience := 0.8
        time_pressure := true
        battery_drain_multiplier := 1.1
        failure_tolerance_modifier := -1
        exits_gracefully := true }
  | .leisure =>
      { base_receptiveness := 2.3
        conversation_patience := 1.2
        time_pressure := false
        battery_drain_multiplier := 0.9
        failure_tolerance_modifier := 1
        exits_gracefully := true }
  | .trapped =>
      { base_receptiveness := td.recep
        conversation_patience := td.patience
        time_pressure := false
        battery_drain_multiplier := 1
        failure_tolerance_modifier := td.tol
        exits_gracefully := true }
  | .working =>
      { base_receptiveness := 1.5
        conversation_patience := 0.7
        time_pressure := true
        battery_drain_multiplier := 1.2
        failure_tolerance_modifier := -1
        exits_gracefully := true }
  | .socializing =>
      { base_receptiveness := 2.5
        conversation_patience := 1.3
        time_pressure := false
        battery_drain_multiplier := 1.2
        failure_tolerance_modifier := 2
        exits_gracefully := true }

/-- `NPCTypeSystem.combine_modifiers`. -/
def combine_modifiers (role_mods archetype_mods context_mods : NPCTypeModifiers) :
    NPCTypeModifiers :=
  { base_receptiveness :=
      (role_mods.base_receptiveness + archetype_mods.base_receptiveness +
        context_mods.base_receptiveness) / 3
    base_bond :=
      max (max role_mods.base_bond archetype_mods.base_bond) context_mods.base_bond
    conversation_patience :=
      role_mods.conversation_patience * archetype_mods.conversation_patience *
        context_mods.conversation_patience
    time_pressure :=
      role_mods.time_pressure || archetype_mods.time_pressure ||
        context_mods.time_pressure
    domain_boost :=
      role_mods.domain_boost + archetype_mods.domain_boost + context_mods.domain_boost
    battery_drain_multiplier :=
      role_mods.battery_drain_multiplier * archetype_mods.battery_drain_multiplier *
        context_mods.battery_drain_multiplier
    carries_conversation :=
      role_mods.carries_conversation || archetype_mods.carries_conversation
    comfortable_silence :=
      role_mods.comfortable_silence || archetype_mods.comfortable_silence
    critical_of_flirting :=
      role_mods.critical_of_flirting || archetype_mods.critical_of_flirting
    enthusiastic_about_interests :=
      role_mods.enthusiastic_about_interests ||
        archetype_mods.enthusiastic_about_interests
    failure_tolerance_modifier :=
      role_mods.failure_tolerance_modifier + archetype_mods.failure_tolerance_modifier +
        context_mods.failure_tolerance_modifier
    exits_gracefully :=
      role_mods.exits_gracefully && archetype_mods.exits_gracefully &&
        context_mods.exits_gracefully }

/-- Python `int(q)` on an exact rational: truncation toward zero. -/
def pyTrunc (q : ℚ) : Int := q.num.tdiv q.den

/-- `NPCTypeSystem.adjust_failure_tolerance`. -/
def adjust_failure_tolerance (base_tolerance : Int) (modifiers : NPCTypeModifiers) : Int :=
  max 0 (base_tolerance + modifiers.failure_tolerance_modifier)

/-- `NPCTypeSystem.adjust_battery_drain`: `int(base_drain * multiplier)`. -/
def adjust_battery_drain (base_drain : Int) (modifiers : NPCTypeModifiers) : Int :=
  pyTrunc ((base_drain : ℚ) * modifiers.battery_drain_multiplier)

/-- `NPCTypeSystem.adjust_flirt_success`. -/
def adjust_flirt_success (base_rate : Int) (modifiers : NPCTypeModifiers) : Int :=
  if modifiers.critical_of_flirting then pyTrunc ((base_rate : ℚ) * 0.7) else base_rate

/-- `CharacterStats` dataclass of `Introvert_rpg.py`.  The opaque
`location` string is omitted (never read by the engine); `profession`
and `hobbies` are kept as character lists because the engine compares
them by case-insensitive substring containment. -/
structure CharacterStats where
  eloquence : Int := 0
  emotional_intelligence : Int := 0
  body_language_perception : Int := 0
  persuasion : Int := 0
  acting : Int := 0
  intuition : Int := 0
  social_battery : Int := 50
  emotional_bandwidth : Int := 100
  profession : List Char := []
  hobbies : List (List Char) := []
deriving DecidableEq, Repr

/-- `NPCState` dataclass of `Introvert_rpg.py`.  The descriptive fields
owned by the text-generation service (`description`, `age_range`,
`appearance`, `personality`, `interests`) are opaque to the engine and
omitted; `background` is kept because `check_disinterest_trigger`
inspects it, `name` because exit messages embed it. -/
structure NPCState where
  name : String := ""
  background : List Char := []
  receptiveness : ℚ := 2
  bond : ℚ := 0
  consecutive_positives : Nat := 0
  attraction_level : AttractionLevel := .neutral
  base_flirt_success : Int := 90
  flirt_uses : Nat := 0
  failures_this_interaction : Nat := 0
  disinterest_signals : Nat := 0
  type_modifiers : Option NPCTypeModifiers := none
deriving DecidableEq, Repr

/-- `DialogueChoice` dataclass; display text and the unused
`requires_stats`/`is_disinterest_bridge` fields are omitted. -/
structure DialogueChoice where
  risk_level : RiskLevel
  base_success_rate : Int
  is_flirt : Bool := false
  topic : Option (List Char) := none
deriving DecidableEq, Repr

/-- `InteractionContext` dataclass; the `location`/`time_of_day` labels
are never read by resolution or termination code and are omitted. -/
structure InteractionContext where
  npc : NPCState
  player : CharacterStats
  momentum_bonus : Int := 0
  domain_active : Option (List Char) := none
deriving DecidableEq, Repr

/-- Python `s.lower()` restricted to the per-character mapping. -/
def lowerStr (s : List Char) : List Char := s.map Char.toLower

/-- Truthiness of a Python `Optional[str]`: not `None` and nonempty. -/
def optTruthy : Option (List Char) → Bool
  | some s => !s.isEmpty
  | none => false

/-- `InteractionContext.get_momentum_cap`. -/
def get_momentum_cap : RiskLevel → Int
  | .safe => 10
  | .moderate => 12
  | .risky => 14
  | .very_risky => 16

/-- The domain test of `CharacterStats.get_domain_bonus`:
`topic.lower() in profession.lower() or any(topic.lower() in hobby.lower() ...)`. -/
def is_domain_topic (player : CharacterStats) (topic : List Char) : Bool :=
  decide (lowerStr topic <:+: lowerStr player.profession) ||
    player.hobbies.any fun hobby => decide (lowerStr topic <:+: lowerStr hobby)

/-- The `random.randint(1, 3)` draws of `get_domain_bonus`, one per
potentially boosted skill. -/
structure DomainRolls where
  eloquenceRoll : Int
  actingRoll : Int
  persuasionRoll : Int
  intuitionRoll : Int
deriving DecidableEq, Repr

/-- `CharacterStats.get_domain_bonus`, collapsed to the sum of the
returned bonus dict values (the only use `resolve_choice` makes of it):
each of eloquence, acting, persuasion, intuition contributes its
`randint(1,3)` roll when the raw stat value is `<= 1`, and only when
the topic matches profession or a hobby. -/
def get_domain_bonus_total (player : CharacterStats) (topic : List Char)
    (rolls : DomainRolls) : Int :=
  if is_domain_topic player topic then
    (if player.eloquence ≤ 1 then rolls.eloquenceRoll else 0) +
    (if player.acting ≤ 1 then rolls.actingRoll else 0) +
    (if player.persuasion ≤ 1 then rolls.persuasionRoll else 0) +
    (if player.intuition ≤ 1 then rolls.intuitionRoll else 0)
  else 0

/-- `NPCState.get_flirt_success_rate`. -/
def get_flirt_success_rate (npc : NPCState) : Int :=
  let base := npc.base_flirt_success
  let degradation := (npc.flirt_uses : Int) * 20
  let restoration : Int :=
    if npc.bond < 1 then (npc.consecutive_positives : Int) * 2
    else if npc.bond < 2 then (npc.consecutive_positives : Int) * 3
    else if npc.bond < 3 then (npc.consecutive_positives : Int) * 4
    else if npc.bond < 4 then (npc.consecutive_positives : Int) * 5
    else (npc.consecutive_positives : Int) * 6
  max 10 (min 100 (base - degradation + restoration))

/-- The bond-tier base tolerance computed inline by
`NPCState.can_tolerate_failure`. -/
def base_failure_tolerance (bond : ℚ) : Int :=
  if bond < 1 then 1
  else if bond < 2 then 2
  else if bond < 3 then 2
  else if bond < 4 then 3
  else 4

/-- `NPCState.can_tolerate_failure`. -/
def can_tolerate_failure (npc : NPCState) : Bool :=
  let base := base_failure_tolerance npc.bond
  let tolerance :=
    match npc.type_modifiers with
    | some m => adjust_failure_tolerance base m
    | none => base
  (npc.failures_this_interaction : Int) < tolerance

/-- The success-rate accumulation of `resolve_choice` before the flirt
replacement: base rate, plus momentum capped by risk tier, plus the
domain boost of `sum(bonuses.values()) * 2` guarded by
`if choice.topic and context.domain_active`. -/
def success_rate_base (choice : DialogueChoice) (ctx : InteractionContext)
    (rolls : DomainRolls) : Int :=
  let withMomentum :=
    choice.base_success_rate +
      min ctx.momentum_bonus (get_momentum_cap choice.risk_level)
  match choice.topic with
  | some t =>
      if !t.isEmpty && optTruthy ctx.domain_active then
        withMomentum + get_domain_bonus_total ctx.player t rolls * 2
      else withMomentum
  | none => withMomentum

/-- The final success rate of `resolve_choice`: when the choice is a
flirt and the NPC attraction is romantic the accumulated rate is
overwritten by `get_flirt_success_rate`, otherwise it is kept. -/
def resolve_success_rate (choice : DialogueChoice) (ctx : InteractionContext)
    (rolls : DomainRolls) : Int :=
  if choice.is_flirt && ctx.npc.attraction_level == .romantic then
    get_flirt_success_rate ctx.npc
  else
    success_rate_base choice ctx rolls

/-- The success decision of `resolve_choice`: `roll = random.randint(1, 100)`,
`success = roll <= success_rate`. -/
def resolve_success (choice : DialogueChoice) (ctx : InteractionContext)
    (rolls : DomainRolls) (roll : Int) : Bool :=
  decide (roll ≤ resolve_success_rate choice ctx rolls)

/-- `_determine_outcome`; `r` stands for the one `random.random()` draw
the executed branch consumes. -/
def determine_outcome (choice : DialogueChoice) (success : Bool)
    (ctx : InteractionContext) (r : ℚ) : ExchangeOutcome :=
  if !success then .failed
  else if choice.risk_level == .very_risky && 4 ≤ ctx.npc.bond then .very_positive
  else if choice.risk_level == .risky || choice.risk_level == .very_risky then
    if r > 0.5 then .very_positive else .positive
  else if choice.risk_level == .moderate then .positive
  else if r > 0.3 then .positive else .neutral

/-- The `battery_changes` delta tables of `_apply_outcome`, with the
`random.randint` call of the selected entry abstracted into `r`.  In the
source the very-positive/positive romantic entries draw from
`randint(2,3)`/`randint(1,2)`, the failed entries from
`-(randint(18,20)+4)` (romantic), `-(randint(14,16)+4)` (platonic),
`-(randint(15,17)+4)` (neutral); the neutral/negative entries are
written `randint(-3,-4)`, `randint(-8,-10)`, `randint(-4,-5)`,
`randint(-7,-9)`, `randint(-5,-6)`, `randint(-6,-8)` — ranges with
reversed bounds, which `random.randint` rejects; that partiality is
modelled separately by `battery_table_py`. -/
def battery_change : AttractionLevel → ExchangeOutcome → Int → Int
  | .romantic, .very_positive, r => r
  | .romantic, .positive, r => r
  | .romantic, .neutral, r => r
  | .romantic, .negative, r => r
  | .romantic, .failed, r => -(r + 4)
  | .platonic, .very_positive, _ => 1
  | .platonic, .positive, _ => -1
  | .platonic, .neutral, r => r
  | .platonic, .negative, r => r
  | .platonic, .failed, r => -(r + 4)
  | .neutral, .very_positive, _ => 0
  | .neutral, .positive, _ => -2
  | .neutral, .neutral, r => r
  | .neutral, .negative, r => r
  | .neutral, .failed, r => -(r + 4)

/-- The `bandwidth_changes` delta tables of `_apply_outcome`, with the
selected entry's `random.randint` draw abstracted into `r` (romantic:
very-positive `randint(3,5)`, positive `randint(1,2)`, failed
`-(randint(18,26))`; platonic: very-positive `randint(1,2)`, failed
`-(randint(10,13)+3)`; neutral: failed `-(randint(9,12)+3)`; the
neutral/negative rows again use reversed `randint` bounds in the
source, modelled separately by `bandwidth_table_py`). -/
def bandwidth_change : AttractionLevel → ExchangeOutcome → Int → Int
  | .romantic, .very_positive, r => r
  | .romantic, .positive, r => r
  | .romantic, .neutral, r => r
  | .romantic, .negative, r => r
  | .romantic, .failed, r => -r
  | .platonic, .very_positive, r => r
  | .platonic, .positive, _ => 0
  | .platonic, .neutral, r => r
  | .platonic, .negative, r => r
  | .platonic, .failed, r => -(r + 3)
  | .neutral, .very_positive, _ => 0
  | .neutral, .positive, _ => -2
  | .neutral, .neutral, r => r
  | .neutral, .negative, r => r
  | .neutral, .failed, r => -(r + 3)

/-- The one-time `approach_costs` table of `_apply_outcome`. -/
def approach_cost : AttractionLevel → Int
  | .romantic => -7
  | .platonic => -5
  | .neutral => -3

/-- The receptiveness delta of `_apply_outcome`: the selected
`random.uniform` draw is `r` (very-positive `uniform(0.75,1.0)`,
positive `uniform(0.25,0.5)`, neutral `uniform(-0.25,0)`, failed
`uniform(-0.5,-1.0)`); a `negative` outcome has no branch. -/
def recep_change : ExchangeOutcome → ℚ → ℚ
  | .very_positive, r => r
  | .positive, r => r
  | .neutral, r => r
  | .failed, r => r
  | .negative, _ => 0

/-- The bond delta of `_apply_outcome` (same branch structure as
`recep_change`, with failed drawing `uniform(-0.25,-0.5)`). -/
def bond_change : ExchangeOutcome → ℚ → ℚ
  | .very_positive, r => r
  | .positive, r => r
  | .neutral, r => r
  | .failed, r => r
  | .negative, _ => 0

/-- The state-mutation sequence of `_apply_outcome`, with the selected
battery/bandwidth table entries passed in as `bDelta`/`wDelta` and the
receptiveness/bond `uniform` draws as `rRoll`/`bRoll`.  The mutations
follow the source order: battery (+ table delta, then replace it by the
drain-adjusted delta when type modifiers exist, then clamp to
[-50,50]); bandwidth (approach cost when bond == 0, + table delta,
extra -5 when a flirt fails, clamp to [0,100]); receptiveness and bond
(+ outcome delta, clamp to [0,10]); momentum; failure and flirt
counters. -/
def apply_outcome_with (outcome : ExchangeOutcome) (choice : DialogueChoice)
    (ctx : InteractionContext) (success : Bool)
    (bDelta wDelta : Int) (rRoll bRoll : ℚ) : InteractionContext :=
  let npc := ctx.npc
  let player := ctx.player
  let battery1 := player.social_battery + bDelta
  let battery2 :=
    match npc.type_modifiers with
    | some m => battery1 - bDelta + adjust_battery_drain bDelta m
    | none => battery1
  let battery3 := max (-50) (min 50 battery2)
  let bw1 := player.emotional_bandwidth +
    (if npc.bond = 0 then approach_cost npc.attraction_level else 0)
  let bw2 := bw1 + wDelta
  let bw3 := if choice.is_flirt && !success then bw2 - 5 else bw2
  let bw4 := max 0 (min 100 bw3)
  let recep2 := max 0 (min 10 (npc.receptiveness + recep_change outcome rRoll))
  let bond2 := max 0 (min 10 (npc.bond + bond_change outcome bRoll))
  let isPositive := outcome == .very_positive || outcome == .positive
  let cp := if isPositive then npc.consecutive_positives + 1 else 0
  let momentum : Int := if isPositive then (cp : Int) * 2 else 0
  let failures :=
    if outcome == .failed then npc.failures_this_interaction + 1
    else npc.failures_this_interaction
  let fuses := if choice.is_flirt then npc.flirt_uses + 1 else npc.flirt_uses
  { ctx with
    player := { player with social_battery := battery3, emotional_bandwidth := bw4 }
    npc := { npc with
      receptiveness := recep2
      bond := bond2
      consecutive_positives := cp
      failures_this_interaction := failures
      flirt_uses := fuses }
    momentum_bonus := momentum }

/-- The `random.randint`/`random.uniform` draws one `_apply_outcome`
call consumes for the entries actually used. -/
structure OutcomeDraws where
  batteryRoll : Int
  bandwidthRoll : Int
  recepRoll : ℚ
  bondRoll : ℚ
deriving DecidableEq, Repr

/-- `_apply_outcome` with the sampler abstracted into `d`: the battery
and bandwidth deltas come from the (attraction × outcome) tables. -/
def apply_outcome (outcome : ExchangeOutcome) (choice : DialogueChoice)
    (ctx : InteractionContext) (success : Bool) (d : OutcomeDraws) :
    InteractionContext :=
  apply_outcome_with outcome choice ctx success
    (battery_change ctx.npc.attraction_level outcome d.batteryRoll)
    (bandwidth_change ctx.npc.attraction_level outcome d.bandwidthRoll)
    d.recepRoll d.bondRoll

/-- `random.randint(a, b)` with sampled value `r`: raises `ValueError`
(modelled as `none`) when the range is empty, i.e. when `b < a`. -/
def randint (a b r : Int) : Option Int :=
  if a ≤ b then some r else none

/-- One sampled value per `randint` site of a delta-table literal. -/
structure TableDraws where
  r1 : Int := 0
  r2 : Int := 0
  r3 : Int := 0
  r4 : Int := 0
  r5 : Int := 0
deriving DecidableEq, Repr

/-- The `battery_changes` dict literal of `_apply_outcome` exactly as
the source evaluates it: every entry's `randint` is evaluated eagerly
when the dict is built, so an empty range in any entry aborts the whole
call.  The source's neutral/negative entries pass reversed bounds. -/
def battery_table_py (att : AttractionLevel) (d : TableDraws) :
    Option (ExchangeOutcome → Int) :=
  match att with
  | .romantic => do
      let v1 ← randint 2 3 d.r1
      let v2 ← randint 1 2 d.r2
      let v3 ← randint (-3) (-4) d.r3
      let v4 ← randint (-8) (-10) d.r4
      let v5 ← randint 18 20 d.r5
      pure fun o => match o with
        | .very_positive => v1
        | .positive => v2
        | .neutral => v3
        | .negative => v4
        | .failed => -(v5 + 4)
  | .platonic => do
      let v3 ← randint (-4) (-5) d.r3
      let v4 ← randint (-7) (-9) d.r4
      let v5 ← randint 14 16 d.r5
      pure fun o => match o with
        | .very_positive => 1
        | .positive => -1
        | .neutral => v3
        | .negative => v4
        | .failed => -(v5 + 4)
  | .neutral => do
      let v3 ← randint (-5) (-6) d.r3
      let v4 ← randint (-6) (-8) d.r4
      let v5 ← randint 15 17 d.r5
      pure fun o => match o with
        | .very_positive => 0
        | .positive => -2
        | .neutral => v3
        | .negative => v4
        | .failed => -(v5 + 4)

/-- The `bandwidth_changes` dict literal of `_apply_outcome`, evaluated
eagerly like `battery_table_py`; the neutral/negative entries again
pass reversed bounds to `randint`. -/
def bandwidth_table_py (att : AttractionLevel) (d : TableDraws) :
    Option (ExchangeOutcome → Int) :=
  match att with
  | .romantic => do
      let v1 ← randint 3 5 d.r1
      let v2 ← randint 1 2 d.r2
      let v3 ← randint (-4) (-5) d.r3
      let v4 ← randint (-8) (-10) d.r4
      let v5 ← randint 18 26 d.r5
      pure fun o => match o with
        | .very_positive => v1
        | .positive => v2
        | .neutral => v3
        | .negative => v4
        | .failed => -v5
  | .platonic => do
      let v1 ← randint 1 2 d.r1
      let v3 ← randint (-6) (-7) d.r3
      let v4 ← randint (-7) (-9) d.r4
      let v5 ← randint 10 13 d.r5
      pure fun o => match o with
        | .very_positive => v1
        | .positive => 0
        | .neutral => v3
        | .negative => v4
        | .failed => -(v5 + 3)
  | .neutral => do
      let v3 ← randint (-7) (-8) d.r3
      let v4 ← randint (-6) (-8) d.r4
      let v5 ← randint 9 12 d.r5
      pure fun o => match o with
        | .very_positive => 0
        | .positive => -2
        | .neutral => v3
        | .negative => v4
        | .failed => -(v5 + 3)

/-- `_apply_outcome` as the source executes it: both delta dicts must
be built before any of their entries is read, and a `ValueError` from a
reversed `randint` range (modelled `none`) aborts the call before any
state mutation is observable. -/
def apply_outcome_py (outcome : ExchangeOutcome) (choice : DialogueChoice)
    (ctx : InteractionContext) (success : Bool)
    (db dw : TableDraws) (rRoll bRoll : ℚ) : Option InteractionContext := do
  let bt ← battery_table_py ctx.npc.attraction_level db
  let wt ← bandwidth_table_py ctx.npc.attraction_level dw
  pure (apply_outcome_with outcome choice ctx success (bt outcome) (wt outcome)
    rRoll bRoll)

/-- The acting-stat trigger-rate dict of `check_disinterest_trigger`
with its `.get(acting, 0.4)` default. -/
def trigger_rate_for (acting : Int) : ℚ :=
  if acting = 0 then 0.6
  else if acting = 1 then 0.6
  else if acting = 2 then 0.4
  else if acting = 3 then 0.2
  else if acting = 4 then 0.1
  else if acting = 5 then 0.1
  else 0.4

/-- The free-text exemption marker `check_disinterest_trigger` looks
for in the NPC background. -/
def acknowledgedMarker : List Char := ("explicitly acknowledged").toList

/-- The in-domain early-return guard of `check_disinterest_trigger`:
`if topic and context.domain_active` and then
`topic.lower() in context.domain_active.lower()`. -/
def domain_skip (topic : List Char) (ctx : InteractionContext) : Bool :=
  match ctx.domain_active with
  | some d =>
      !topic.isEmpty && !d.isEmpty && decide (lowerStr topic <:+: lowerStr d)
  | none => false

/-- `check_disinterest_trigger`; `u` is the `random.random()` draw.
Returns the trigger flag and the (possibly signal-incremented) context. -/
def check_disinterest_trigger (topic : List Char) (ctx : InteractionContext)
    (u : ℚ) : Bool × InteractionContext :=
  if domain_skip topic ctx then (false, ctx)
  else if 0 < ctx.npc.bond ∧ acknowledgedMarker <:+: ctx.npc.background then
    (false, ctx)
  else if u < trigger_rate_for ctx.player.acting *
      (if ctx.npc.attraction_level == .romantic then 0.5 else 1) then
    (true, { ctx with npc :=
      { ctx.npc with disinterest_signals := ctx.npc.disinterest_signals + 1 } })
  else (false, ctx)

/-- `apply_disinterest_consequence`: the escalating receptiveness/bond
decrements keyed by the current signal count, with no clamping.  The
in-character quoted sentences of the source messages are elided; the
distinguishing prefix text is kept. -/
def apply_disinterest_consequence (ctx : InteractionContext) :
    InteractionContext × String :=
  let npc := ctx.npc
  if npc.disinterest_signals = 1 then
    ({ ctx with npc := { npc with receptiveness := npc.receptiveness - 0.25 } },
      npc.name ++ " notices you seem a bit distracted.")
  else if npc.disinterest_signals = 2 then
    ({ ctx with npc := { npc with
        receptiveness := npc.receptiveness - 0.5
        bond := npc.bond - 0.25 } },
      npc.name ++ " pulls back slightly.")
  else
    ({ ctx with npc := { npc with
        receptiveness := npc.receptiveness - 1
        bond := npc.bond - 0.5 } },
      npc.name ++ " stops talking. The conversation has ended.")

/-- `should_npc_exit`: ordered termination checks, first match wins. -/
def should_npc_exit (ctx : InteractionContext) : Bool × String :=
  if !can_tolerate_failure ctx.npc then
    (true, ctx.npc.name ++ " politely wraps up the conversation and leaves.")
  else if 3 ≤ ctx.npc.disinterest_signals then
    (true, ctx.npc.name ++ " has lost interest and ends the conversation.")
  else if ctx.npc.receptiveness < 1 then
    (true, ctx.npc.name ++ " seems uncomfortable and makes an excuse to leave.")
  else (false, "")

/-- Overwrite the two display-only modifier fields (conversation
patience and domain boost) of a context's NPC bundle, leaving every
other component of the state unchanged; used to state that the engine
never reads them. -/
def set_patience_domain (ctx : InteractionContext) (p d : ℚ) : InteractionContext :=
  let newMods := ctx.npc.type_modifiers.map (fun m =>
    { m with conversation_patience := p, domain_boost := d })
  { ctx with npc := { ctx.npc with type_modifiers := newMods } }

/-- One resolved move of an interaction: the data `_apply_outcome`
consumes. -/
structure MoveStep where
  outcome : ExchangeOutcome
  choice : DialogueChoice
  success : Bool
  draws : OutcomeDraws
deriving DecidableEq, Repr

/-- A sequence of resolved moves applied through `_apply_outcome`. -/
def run_moves (ctx : InteractionContext) (steps : List MoveStep) :
    InteractionContext :=
  steps.foldl (fun c s => apply_outcome s.outcome s.choice c s.success s.draws) ctx

/-- The documented bounds of the four clamped state fields. -/
def state_in_bounds (ctx : InteractionContext) : Prop :=
  -50 ≤ ctx.player.social_battery ∧ ctx.player.social_battery ≤ 50 ∧
  0 ≤ ctx.player.emotional_bandwidth ∧ ctx.player.emotional_bandwidth ≤ 100 ∧
  0 ≤ ctx.npc.receptiveness ∧ ctx.npc.receptiveness ≤ 10 ∧
  0 ≤ ctx.npc.bond ∧ ctx.npc.bond ≤ 10

instance (ctx : InteractionContext) : Decidable (state_in_bounds ctx) := by
  unfold state_in_bounds; infer_instance

/-- The per-bond-tier multiplier of the flirt restoration term. -/
def flirt_k (bond : ℚ) : Int :=
  if bond < 1 then 2
  else if bond < 2 then 3
  else if bond < 3 then 4
  else if bond < 4 then 5
  else 6

/-- The domain-boost summand of the success rate, extracted from
`success_rate_base`: zero unless the move carries a (truthy) topic and
the context has a (truthy) active domain. -/
def domain_boost_term (choice : DialogueChoice) (ctx : InteractionContext)
    (rolls : DomainRolls) : Int :=
  match choice.topic with
  | some t =>
      if !t.isEmpty && optTruthy ctx.domain_active then
        get_domain_bonus_total ctx.player t rolls * 2
      else 0
  | none => 0

/-- How many of the four domain-boostable skills are at raw value ≤ 1. -/
def weak_skill_count (player : CharacterStats) : Int :=
  (if player.eloquence ≤ 1 then 1 else 0) +
  (if player.acting ≤ 1 then 1 else 0) +
  (if player.persuasion ≤ 1 then 1 else 0) +
  (if player.intuition ≤ 1 then 1 else 0)

/-- The guard under which `check_disinterest_trigger` reaches its
random draw: the topic is not (truthy-and-)contained in a truthy
active domain, and the bond-gated background exemption does not hold. -/
def disinterest_fires (topic : List Char) (ctx : InteractionContext) : Prop :=
  (match ctx.domain_active with
   | some d => ¬(topic ≠ [] ∧ d ≠ [] ∧ lowerStr topic <:+: lowerStr d)
   | none => True) ∧
  ¬(0 < ctx.npc.bond ∧ acknowledgedMarker <:+: ctx.npc.background)

/-- The trigger rate `check_disinterest_trigger` compares its draw to. -/
def disinterest_rate (ctx : InteractionContext) : ℚ :=
  trigger_rate_for ctx.player.acting *
    (if ctx.npc.attraction_level == .romantic then 0.5 else 1)

/-- A context's NPC with its modifier bundle forced to a given value. -/
def with_mods (ctx : InteractionContext) (m : NPCTypeModifiers) : InteractionContext :=
  { ctx with npc := { ctx.npc with type_modifiers := some m } }

section Lemmas

lemma clamp_bounds {α : Type} [LinearOrder α] (lo hi x : α) (h : lo ≤ hi) :
    lo ≤ max lo (min hi x) ∧ max lo (min hi x) ≤ hi :=
  ⟨le_max_left _ _, max_le h (min_le_left _ _)⟩

lemma apply_outcome_with_bounds (o : ExchangeOutcome) (c : DialogueChoice)
    (ctx : InteractionContext) (s : Bool) (bD wD : Int) (rR bR : ℚ) :
    state_in_bounds (apply_outcome_with o c ctx s bD wD rR bR) := by
  have h50 : (-50 : Int) ≤ 50 := by norm_num
  have h100 : (0 : Int) ≤ 100 := by norm_num
  have h10 : (0 : ℚ) ≤ 10 := by norm_num
  refine ⟨(clamp_bounds _ _ _ h50).1, (clamp_bounds _ _ _ h50).2,
    (clamp_bounds _ _ _ h100).1, (clamp_bounds _ _ _ h100).2,
    (clamp_bounds _ _ _ h10).1, (clamp_bounds _ _ _ h10).2,
    (clamp_bounds _ _ _ h10).1, (clamp_bounds _ _ _ h10).2⟩

lemma apply_outcome_bounds (o : ExchangeOutcome) (c : DialogueChoice)
    (ctx : InteractionContext) (s : Bool) (d : OutcomeDraws) :
    state_in_bounds (apply_outcome o c ctx s d) :=
  apply_outcome_with_bounds o c ctx s _ _ _ _

lemma run_moves_bounds (steps : List MoveStep) (ctx : InteractionContext)
    (h : state_in_bounds ctx) : state_in_bounds (run_moves ctx steps) := by
  induction steps generalizing ctx with
  | nil => exact h
  | cons s ss ih =>
      have hstep := apply_outcome_bounds s.outcome s.choice ctx s.success s.draws
      simpa [run_moves, List.foldl_cons] using ih _ hstep

end Lemmas

/-- Sample concrete states used by witnesses and counterexamples. -/
def sampleNPC : NPCState :=
  { name := "Quinn"
    background := ("grew up nearby").toList
    receptiveness := 2
    bond := 0
    attraction_level := .neutral
    type_modifiers := some { battery_drain_multiplier := 1.2 } }

def sampleCtx : InteractionContext :=
  { npc := sampleNPC, player := {}, momentum_bonus := 0, domain_active := none }

def sampleSteps : List MoveStep :=
  [ { outcome := .failed
      choice := { risk_level := .risky, base_success_rate := 40 }
      success := false
      draws := { batteryRoll := 16, bandwidthRoll := 10, recepRoll := -0.7, bondRoll := -0.3 } },
    { outcome := .positive
      choice := { risk_level := .safe, base_success_rate := 85 }
      success := true
      draws := { batteryRoll := 1, bandwidthRoll := 0, recepRoll := 0.3, bondRoll := 0.3 } } ]

/-- Context observed mid-interaction right after a third disinterest
signal was recorded: all fields inside their documented bounds. -/
def disCtx : InteractionContext :=
  { npc := { name := "Mia", receptiveness := 0.5, bond := 0.1, disinterest_signals := 3 }
    player := {} }

/-- C1, as stated, is false: the disinterest-consequence step applies
its receptiveness and bond decrements without clamping, so from the
in-bounds state `disCtx` it drives both below 0. -/
theorem C1_counterexample :
    state_in_bounds disCtx ∧
    (apply_disinterest_consequence disCtx).1.npc.receptiveness < 0 ∧
    (apply_disinterest_consequence disCtx).1.npc.bond < 0 := by
  refine ⟨?_, ?_, ?_⟩ <;> norm_num [disCtx, state_in_bounds, apply_disinterest_consequence]

/-- C1 (amended): along any sequence of resolved moves (`_apply_outcome`
steps, delta sampler abstracted), starting from a state inside the
documented bounds, the player's social battery stays in [-50,50], the
emotional bandwidth in [0,100] and the NPC's receptiveness and bond in
[0,10] at every observation point — each of the four fields is clamped
after the mutation.  (The disinterest-consequence step is exempt: it
does not clamp.) -/
theorem C1_bounds_invariant (ctx : InteractionContext) (steps : List MoveStep)
    (n : ℕ) (h : state_in_bounds ctx) :
    state_in_bounds (run_moves ctx (steps.take n)) :=
  run_moves_bounds _ _ h

theorem C1_bounds_invariant_witness :
    state_in_bounds sampleCtx ∧ state_in_bounds (run_moves sampleCtx (sampleSteps.take 2)) :=
  ⟨by decide, C1_bounds_invariant sampleCtx sampleSteps 2 (by decide)⟩

/-- C3: `get_flirt_success_rate` is the clamp to [10,100] of
`base_flirt_success − 20·flirt_uses + consecutive_positives·k` with k
determined by the bond tier (2 below bond 1, 3 below 2, 4 below 3, 5
below 4, 6 at ≥ 4), and its value always lies in [10,100]. -/
theorem C3_flirt_rate (npc : NPCState) :
    get_flirt_success_rate npc =
      max 10 (min 100 (npc.base_flirt_success - 20 * (npc.flirt_uses : Int) +
        (npc.consecutive_positives : Int) * flirt_k npc.bond)) ∧
    (npc.bond < 1 → flirt_k npc.bond = 2) ∧
    (1 ≤ npc.bond → npc.bond < 2 → flirt_k npc.bond = 3) ∧
    (2 ≤ npc.bond → npc.bond < 3 → flirt_k npc.bond = 4) ∧
    (3 ≤ npc.bond → npc.bond < 4 → flirt_k npc.bond = 5) ∧
    (4 ≤ npc.bond → flirt_k npc.bond = 6) ∧
    10 ≤ get_flirt_success_rate npc ∧ get_flirt_success_rate npc ≤ 100 := by
  have h : (10 : Int) ≤ 100 := by norm_num
  refine ⟨?_, ?_, ?_, ?_, ?_, ?_, ?_, ?_⟩
  · unfold get_flirt_success_rate flirt_k
    split_ifs <;> ring_nf
  · intro h1; simp [flirt_k, h1]
  · intro h1 h2; rw [flirt_k]; rw [if_neg (by linarith), if_pos h2]
  · intro h1 h2; rw [flirt_k]
    rw [if_neg (by linarith), if_neg (by linarith), if_pos h2]
  · intro h1 h2; rw [flirt_k]
    rw [if_neg (by linarith), if_neg (by linarith), if_neg (by linarith), if_pos h2]
  · intro h1; rw [flirt_k]
    rw [if_neg (by linarith), if_neg (by linarith), if_neg (by linarith),
      if_neg (by linarith)]
  · exact (clamp_bounds _ _ _ h).1
  · exact (clamp_bounds _ _ _ h).2

theorem C3_flirt_rate_witness :
    get_flirt_success_rate
      { base_flirt_success := 70, flirt_uses := 2, bond := 1.5, consecutive_positives := 3 } = 39 ∧
    (1.5 : ℚ) < 2 ∧ flirt_k 1.5 = 3 := by
  have h := C3_flirt_rate
    { base_flirt_success := 70, flirt_uses := 2, bond := 1.5, consecutive_positives := 3 }
  refine ⟨?_, by norm_num, h.2.2.1 (by norm_num) (by norm_num)⟩
  rw [h.1, h.2.2.1 (by norm_num) (by norm_num)]
  norm_num

/-- C9: `combine_modifiers` combines the three per-axis bundles with
mean receptiveness, max bond, product patience, OR time pressure, sum
domain boost, product battery drain, role-or-archetype OR for the four
behaviour flags (the context bundle never contributes to them), sum
failure tolerance and AND exits-gracefully; and for the
service-worker/introvert/working triple (whatever the trapped-context
draws) the combined receptiveness is below 2.0 and the combined battery
drain multiplier above 1.0.  Determinism holds by construction: the
combination is a pure function of the three bundles. -/
theorem C9_combine (r a c : NPCTypeModifiers) :
    (combine_modifiers r a c).base_receptiveness =
      (r.base_receptiveness + a.base_receptiveness + c.base_receptiveness) / 3 ∧
    (combine_modifiers r a c).base_bond =
      max (max r.base_bond a.base_bond) c.base_bond ∧
    (combine_modifiers r a c).conversation_patience =
      r.conversation_patience * a.conversation_patience * c.conversation_patience ∧
    (combine_modifiers r a c).time_pressure =
      (r.time_pressure || a.time_pressure || c.time_pressure) ∧
    (combine_modifiers r a c).domain_boost =
      r.domain_boost + a.domain_boost + c.domain_boost ∧
    (combine_modifiers r a c).battery_drain_multiplier =
      r.battery_drain_multiplier * a.battery_drain_multiplier *
        c.battery_drain_multiplier ∧
    (combine_modifiers r a c).carries_conversation =
      (r.carries_conversation || a.carries_conversation) ∧
    (combine_modifiers r a c).comfortable_silence =
      (r.comfortable_silence || a.comfortable_silence) ∧
    (combine_modifiers r a c).critical_of_flirting =
      (r.critical_of_flirting || a.critical_of_flirting) ∧
    (combine_modifiers r a c).enthusiastic_about_interests =
      (r.enthusiastic_about_interests || a.enthusiastic_about_interests) ∧
    (combine_modifiers r a c).failure_tolerance_modifier =
      r.failure_tolerance_modifier + a.failure_tolerance_modifier +
        c.failure_tolerance_modifier ∧
    (combine_modifiers r a c).exits_gracefully =
      (r.exits_gracefully && a.exits_gracefully && c.exits_gracefully) ∧
    (∀ c' : NPCTypeModifiers,
      (combine_modifiers r a c').carries_conversation =
        (combine_modifiers r a c).carries_conversation ∧
      (combine_modifiers r a c').comfortable_silence =
        (combine_modifiers r a c).comfortable_silence ∧
      (combine_modifiers r a c').critical_of_flirting =
        (combine_modifiers r a c).critical_of_flirting ∧
      (combine_modifiers r a c').enthusiastic_about_interests =
        (combine_modifiers r a c).enthusiastic_about_interests) ∧
    (∀ td : TrappedDraws,
      (combine_modifiers (get_role_modifiers .service_worker)
        (get_archetype_modifiers .introvert)
        (get_context_modifiers .working td)).base_receptiveness < 2 ∧
      1 < (combine_modifiers (get_role_modifiers .service_worker)
        (get_archetype_modifiers .introvert)
        (get_context_modifiers .working td)).battery_drain_multiplier) := by
  refine ⟨rfl, rfl, rfl, rfl, rfl, rfl, rfl, rfl, rfl, rfl, rfl, rfl,
    fun c' => ⟨rfl, rfl, rfl, rfl⟩, fun td => ⟨?_, ?_⟩⟩ <;>
    norm_num [combine_modifiers, get_role_modifiers, get_archetype_modifiers,
      get_context_modifiers]

lemma success_rate_base_eq (choice : DialogueChoice) (ctx : InteractionContext)
    (rolls : DomainRolls) :
    success_rate_base choice ctx rolls =
      choice.base_success_rate +
        min ctx.momentum_bonus (get_momentum_cap choice.risk_level) +
        domain_boost_term choice ctx rolls := by
  rcases hc : choice.topic with _ | t
  · simp [success_rate_base, domain_boost_term, hc]
  · simp only [success_rate_base, domain_boost_term, hc]
    split_ifs <;> ring

/-- C2: `resolve_choice` draws a roll and succeeds iff the roll is at
most the final success rate; the final rate is base + capped momentum +
domain-boost term unless the move is a flirt against a romantic NPC, in
which case it is replaced outright by `get_flirt_success_rate`; the
momentum actually applied never exceeds the risk tier's cap, and the
caps are 10/12/14/16 for safe/moderate/risky/very-risky. -/
theorem C2_resolution (choice : DialogueChoice) (ctx : InteractionContext)
    (rolls : DomainRolls) (roll : Int) :
    (resolve_success choice ctx rolls roll =
      decide (roll ≤ resolve_success_rate choice ctx rolls)) ∧
    (¬(choice.is_flirt = true ∧ ctx.npc.attraction_level = .romantic) →
      resolve_success_rate choice ctx rolls =
        choice.base_success_rate +
          min ctx.momentum_bonus (get_momentum_cap choice.risk_level) +
          domain_boost_term choice ctx rolls) ∧
    (choice.is_flirt = true ∧ ctx.npc.attraction_level = .romantic →
      resolve_success_rate choice ctx rolls = get_flirt_success_rate ctx.npc) ∧
    min ctx.momentum_bonus (get_momentum_cap choice.risk_level) ≤
      get_momentum_cap choice.risk_level ∧
    get_momentum_cap .safe = 10 ∧ get_momentum_cap .moderate = 12 ∧
    get_momentum_cap .risky = 14 ∧ get_momentum_cap .very_risky = 16 := by
  refine ⟨rfl, ?_, ?_, min_le_right _ _, rfl, rfl, rfl, rfl⟩
  · intro h
    have hb : ¬((choice.is_flirt &&
        (ctx.npc.attraction_level == AttractionLevel.romantic)) = true) := by
      simpa [Bool.and_eq_true, beq_iff_eq] using h
    rw [resolve_success_rate, if_neg hb, success_rate_base_eq]
  · intro h
    have hb : (choice.is_flirt &&
        (ctx.npc.attraction_level == AttractionLevel.romantic)) = true := by
      simp [Bool.and_eq_true, beq_iff_eq, h.1, h.2]
    rw [resolve_success_rate, if_pos hb]

def c2choice : DialogueChoice :=
  { risk_level := .risky, base_success_rate := 40, is_flirt := true }

def c2ctx : InteractionContext :=
  { npc := { attraction_level := .romantic, base_flirt_success := 70 }, player := {} }

theorem C2_resolution_witness :
    resolve_success_rate c2choice c2ctx ⟨1, 1, 1, 1⟩ = get_flirt_success_rate c2ctx.npc ∧
    resolve_success c2choice c2ctx ⟨1, 1, 1, 1⟩ 70 = true := by
  have h := C2_resolution c2choice c2ctx ⟨1, 1, 1, 1⟩ 70
  refine ⟨h.2.2.1 ⟨rfl, rfl⟩, ?_⟩
  rw [h.1]
  decide

def c5choice : DialogueChoice := { risk_level := .moderate, base_success_rate := 60 }

def c5ctx : InteractionContext :=
  { npc := { name := "Ava", attraction_level := .romantic
             type_modifiers := some { battery_drain_multiplier := 1.2 } }
    player := {} }

/-- C5 (code bug): the `battery_changes` dict of `_apply_outcome`
evaluates `random.randint(-3,-4)` / `randint(-8,-10)` (and the platonic
and neutral analogues) while being built, all of which are empty ranges
that raise `ValueError` — so for every attraction level the faithful
model returns `none` and no battery change is ever applied (first two
conjuncts).  The mutation sequence itself, as written, does satisfy the
claim: the net battery change replaces the base table delta with the
drain-rescaled `int(delta × multiplier)` and clamps to [-50,50] (third
conjunct). -/
theorem C5_battery_code_bug :
    (∀ (att : AttractionLevel) (d : TableDraws), battery_table_py att d = none) ∧
    (∀ (db dw : TableDraws) (rR bR : ℚ),
      apply_outcome_py .positive c5choice c5ctx true db dw rR bR = none) ∧
    (∀ (out : ExchangeOutcome) (choice : DialogueChoice) (ctx : InteractionContext)
        (succ : Bool) (m : NPCTypeModifiers) (dr : OutcomeDraws),
      (apply_outcome out choice (with_mods ctx m) succ dr).player.social_battery =
        max (-50) (min 50 (ctx.player.social_battery +
          adjust_battery_drain
            (battery_change ctx.npc.attraction_level out dr.batteryRoll) m))) := by
  refine ⟨?_, ?_, ?_⟩
  · intro att d
    cases att <;> norm_num [battery_table_py, randint]
  · intro db dw rR bR
    have h : battery_table_py c5ctx.npc.attraction_level db = none := by
      norm_num [battery_table_py, randint, c5ctx]
    simp [apply_outcome_py, h]
  · intro out choice ctx succ m dr
    simp only [apply_outcome, apply_outcome_with, with_mods]
    omega

def c6choice : DialogueChoice :=
  { risk_level := .risky, base_success_rate := 45, is_flirt := true }

def c6ctx : InteractionContext :=
  { npc := { name := "Noor", attraction_level := .romantic }, player := {} }

/-- C6 (code bug): the `bandwidth_changes` dict of `_apply_outcome`
also evaluates reversed-bound `randint` ranges while being built
(`randint(-4,-5)` etc.), so the faithful model returns `none` for every
attraction level and the bandwidth update never executes (first two
conjuncts; the call in fact dies even earlier, in the battery dict).
The update sequence as written does satisfy the claim: approach cost
only when bond is exactly 0 at resolution time, plus the tiered delta,
plus −5 exactly when a flirt move fails, then clamp to [0,100] (third
conjunct). -/
theorem C6_bandwidth_code_bug :
    (∀ (att : AttractionLevel) (d : TableDraws), bandwidth_table_py att d = none) ∧
    (∀ (db dw : TableDraws) (rR bR : ℚ),
      apply_outcome_py .failed c6choice c6ctx false db dw rR bR = none) ∧
    (∀ (out : ExchangeOutcome) (choice : DialogueChoice) (ctx : InteractionContext)
        (succ : Bool) (dr : OutcomeDraws),
      (apply_outcome out choice ctx succ dr).player.emotional_bandwidth =
        max 0 (min 100 (ctx.player.emotional_bandwidth +
          (if ctx.npc.bond = 0 then approach_cost ctx.npc.attraction_level else 0) +
          bandwidth_change ctx.npc.attraction_level out dr.bandwidthRoll +
          (if choice.is_flirt && !succ then -5 else 0)))) := by
  refine ⟨?_, ?_, ?_⟩
  · intro att d
    cases att <;> norm_num [bandwidth_table_py, randint]
  · intro db dw rR bR
    have h : battery_table_py c6ctx.npc.attraction_level db = none := by
      norm_num [battery_table_py, randint, c6ctx]
    simp [apply_outcome_py, h]
  · intro out choice ctx succ dr
    simp only [apply_outcome, apply_outcome_with]
    split_ifs <;> omega

def c4player : CharacterStats :=
  { eloquence := 0, emotional_intelligence := 4, body_language_perception := 3,
    persuasion := 1, acting := 2, intuition := 5,
    profession := ("dogwalker").toList }

def c4choice : DialogueChoice :=
  { risk_level := .safe, base_success_rate := 80, topic := some (("dog").toList) }

def c4ctx : InteractionContext :=
  { npc := {}, player := c4player, momentum_bonus := 0,
    domain_active := some (("art").toList) }

/-- C4, as stated, is false: with topic "dog" and active domain "art"
(which do not match each other in either direction), the domain bonus
is still applied because the topic matches the player's profession
"dogwalker" — the code keys the match on the player's
profession/hobbies, using the active domain only as a truthiness
gate.  With all four rolls fixed at 1 the rate is 80 + 0 momentum +
2·(1 eloquence + 1 persuasion) = 84. -/
theorem C4_counterexample :
    success_rate_base c4choice c4ctx ⟨1, 1, 1, 1⟩ = 84 ∧
    domain_boost_term c4choice c4ctx ⟨1, 1, 1, 1⟩ ≠ 0 ∧
    ¬(lowerStr (("dog").toList) <:+: lowerStr (("art").toList)) ∧
    ¬(lowerStr (("art").toList) <:+: lowerStr (("dog").toList)) := by
  refine ⟨by decide, by decide, by decide, by decide⟩

/-- C4 (amended): given the move carries a topic and both the topic and
the active domain are truthy, the domain-boost summand fires exactly
when the topic matches the player's profession or hobbies
(case-insensitive substring) — not the active domain — and equals two
percentage points per bonus point, where only eloquence, acting,
persuasion, intuition with raw value ≤ 1 each contribute their rolled
1–3 bonus; hence the boost is between twice and six times the number of
weak listed skills. -/
theorem C4_domain_bonus (choice : DialogueChoice) (ctx : InteractionContext)
    (rolls : DomainRolls) (t : List Char) (ht : choice.topic = some t)
    (he1 : 1 ≤ rolls.eloquenceRoll) (he2 : rolls.eloquenceRoll ≤ 3)
    (ha1 : 1 ≤ rolls.actingRoll) (ha2 : rolls.actingRoll ≤ 3)
    (hp1 : 1 ≤ rolls.persuasionRoll) (hp2 : rolls.persuasionRoll ≤ 3)
    (hi1 : 1 ≤ rolls.intuitionRoll) (hi2 : rolls.intuitionRoll ≤ 3) :
    (is_domain_topic ctx.player t = false → domain_boost_term choice ctx rolls = 0) ∧
    (domain_boost_term choice ctx rolls ≠ 0 →
      is_domain_topic ctx.player t = true ∧ t.isEmpty = false ∧
        optTruthy ctx.domain_active = true) ∧
    (t.isEmpty = false → optTruthy ctx.domain_active = true →
      is_domain_topic ctx.player t = true →
      domain_boost_term choice ctx rolls =
        ((if ctx.player.eloquence ≤ 1 then rolls.eloquenceRoll else 0) +
         (if ctx.player.acting ≤ 1 then rolls.actingRoll else 0) +
         (if ctx.player.persuasion ≤ 1 then rolls.persuasionRoll else 0) +
         (if ctx.player.intuition ≤ 1 then rolls.intuitionRoll else 0)) * 2 ∧
      2 * weak_skill_count ctx.player ≤ domain_boost_term choice ctx rolls ∧
      domain_boost_term choice ctx rolls ≤ 6 * weak_skill_count ctx.player) := by
  refine ⟨?_, ?_, ?_⟩
  · intro h
    simp only [domain_boost_term, ht]
    split_ifs with hb
    · simp [get_domain_bonus_total, h]
    · rfl
  · intro hne
    simp only [domain_boost_term, ht] at hne
    by_cases hb : (!t.isEmpty && optTruthy ctx.domain_active) = true
    · rw [if_pos hb] at hne
      have hdom : is_domain_topic ctx.player t = true := by
        by_contra h
        simp only [Bool.not_eq_true] at h
        simp [get_domain_bonus_total, h] at hne
      obtain ⟨hbt, hbd⟩ := Bool.and_eq_true_iff.mp hb
      exact ⟨hdom, by simpa using hbt, hbd⟩
    · rw [if_neg hb] at hne
      exact absurd rfl hne
  · intro h1 h2 h3
    have hb : (!t.isEmpty && optTruthy ctx.domain_active) = true := by
      simp [h1, h2]
    have heq : domain_boost_term choice ctx rolls =
        ((if ctx.player.eloquence ≤ 1 then rolls.eloquenceRoll else 0) +
         (if ctx.player.acting ≤ 1 then rolls.actingRoll else 0) +
         (if ctx.player.persuasion ≤ 1 then rolls.persuasionRoll else 0) +
         (if ctx.player.intuition ≤ 1 then rolls.intuitionRoll else 0)) * 2 := by
      simp only [domain_boost_term, ht, if_pos hb, get_domain_bonus_total, h3,
        if_pos]
    refine ⟨heq, ?_, ?_⟩ <;>
      rw [heq] <;> unfold weak_skill_count <;> split_ifs <;> omega

def c4wchoice : DialogueChoice :=
  { risk_level := .moderate, base_success_rate := 60, topic := some (("dog").toList) }

def c4wctx : InteractionContext :=
  { npc := {}, player := c4player, momentum_bonus := 4,
    domain_active := some (("walking").toList) }

theorem C4_domain_bonus_witness :
    domain_boost_term c4wchoice c4wctx ⟨2, 3, 1, 2⟩ = 6 := by
  have h := (C4_domain_bonus c4wchoice c4wctx ⟨2, 3, 1, 2⟩ (("dog").toList) rfl
    (by norm_num) (by norm_num) (by norm_num) (by norm_num)
    (by norm_num) (by norm_num) (by norm_num) (by norm_num)).2.2
    (by decide) (by decide) (by decide)
  rw [h.1]
  decide

lemma fires_iff (topic : List Char) (ctx : InteractionContext) :
    disinterest_fires topic ctx ↔
      domain_skip topic ctx = false ∧
        ¬(0 < ctx.npc.bond ∧ acknowledgedMarker <:+: ctx.npc.background) := by
  unfold disinterest_fires domain_skip
  cases hd : ctx.domain_active with
  | none => simp
  | some d =>
      simp [Bool.and_eq_true, List.isEmpty_iff, decide_eq_true_iff, not_and,
        and_congr_left_iff]

def c7ctx : InteractionContext :=
  { npc := { name := "Sage" }, player := { acting := 6 }, domain_active := none }

/-- C7, as stated, is false for acting values above 5: the trigger-rate
dict has keys 0–5 only, so `trigger_rates.get(acting, 0.4)` yields the
0.4 default at acting = 6 rather than the 0.1 the "5+→0.1" reading
predicts; a draw of 0.3 (not below 0.1) still triggers. -/
theorem C7_counterexample :
    c7ctx.player.acting = 6 ∧
    (check_disinterest_trigger (("cars").toList) c7ctx (3/10)).1 = true ∧
    (check_disinterest_trigger (("cars").toList) c7ctx
      (3/10)).2.npc.disinterest_signals = 1 ∧
    ¬((3 : ℚ)/10 < 1/10) := by
  have hskip : domain_skip (("cars").toList) c7ctx = false := rfl
  have hex : ¬(0 < c7ctx.npc.bond ∧ acknowledgedMarker <:+: c7ctx.npc.background) := by
    intro h
    exact absurd h.1 (by norm_num [c7ctx])
  have hu : (3 : ℚ)/10 < trigger_rate_for c7ctx.player.acting *
      (if c7ctx.npc.attraction_level == AttractionLevel.romantic then 0.5 else 1) := by
    norm_num [trigger_rate_for, c7ctx]
    rw [if_neg (by decide : ¬(AttractionLevel.neutral = AttractionLevel.romantic))]
    norm_num
  have hstep : check_disinterest_trigger (("cars").toList) c7ctx (3/10) =
      (true, { c7ctx with npc := { c7ctx.npc with
        disinterest_signals := c7ctx.npc.disinterest_signals + 1 } }) := by
    simp only [check_disinterest_trigger, hskip, Bool.false_eq_true, if_false,
      if_neg hex, if_pos hu]
  rw [hstep]
  refine ⟨rfl, rfl, ?_, by norm_num⟩
  simp [c7ctx]

/-- C7 (amended): on a move whose topic is not (case-insensitively,
as a substring) inside a truthy active domain and with the bond-gated
background exemption absent, the disinterest check triggers iff the
uniform draw is below the rate keyed by the player's acting skill
(0→0.6, 1→0.6, 2→0.4, 3→0.2, 4→0.1, 5→0.1, and the 0.4 default for
every value outside the 0–5 table, including acting ≥ 6), halved when
the NPC's attraction level is romantic; on trigger `disinterest_signals`
is incremented by exactly one, otherwise the state is unchanged. -/
theorem C7_disinterest (topic : List Char) (ctx : InteractionContext) (u : ℚ) :
    (¬disinterest_fires topic ctx →
      check_disinterest_trigger topic ctx u = (false, ctx)) ∧
    (disinterest_fires topic ctx → u < disinterest_rate ctx →
      check_disinterest_trigger topic ctx u =
        (true, { ctx with npc := { ctx.npc with
          disinterest_signals := ctx.npc.disinterest_signals + 1 } })) ∧
    (disinterest_fires topic ctx → ¬(u < disinterest_rate ctx) →
      check_disinterest_trigger topic ctx u = (false, ctx)) ∧
    trigger_rate_for 0 = 3/5 ∧ trigger_rate_for 1 = 3/5 ∧
    trigger_rate_for 2 = 2/5 ∧ trigger_rate_for 3 = 1/5 ∧
    trigger_rate_for 4 = 1/10 ∧ trigger_rate_for 5 = 1/10 ∧
    (∀ a : Int, a < 0 ∨ 5 < a → trigger_rate_for a = 2/5) ∧
    disinterest_rate ctx = trigger_rate_for ctx.player.acting *
      (if ctx.npc.attraction_level == .romantic then 0.5 else 1) := by
  refine ⟨?_, ?_, ?_, by norm_num [trigger_rate_for], by norm_num [trigger_rate_for],
    by norm_num [trigger_rate_for], by norm_num [trigger_rate_for],
    by norm_num [trigger_rate_for], by norm_num [trigger_rate_for], ?_, rfl⟩
  · intro h
    by_cases hd : domain_skip topic ctx = true
    · simp [check_disinterest_trigger, hd]
    · have hex : 0 < ctx.npc.bond ∧ acknowledgedMarker <:+: ctx.npc.background := by
        by_contra hex
        exact h ((fires_iff topic ctx).mpr ⟨by simpa using hd, hex⟩)
      simp [check_disinterest_trigger, hd, hex]
  · intro hf hu
    obtain ⟨hskip, hex⟩ := (fires_iff topic ctx).mp hf
    rw [disinterest_rate] at hu
    simp only [check_disinterest_trigger, hskip, Bool.false_eq_true, if_false,
      if_neg hex, if_pos hu]
  · intro hf hu
    obtain ⟨hskip, hex⟩ := (fires_iff topic ctx).mp hf
    rw [disinterest_rate] at hu
    simp only [check_disinterest_trigger, hskip, Bool.false_eq_true, if_false,
      if_neg hex, if_neg hu]
  · intro a ha
    unfold trigger_rate_for
    split_ifs <;> first | (exfalso; omega) | norm_num

def c7wctx : InteractionContext :=
  { npc := { name := "Wren", attraction_level := .romantic }
    player := { acting := 3 }, domain_active := none }

theorem C7_disinterest_witness :
    check_disinterest_trigger (("tax law").toList) c7wctx (2/25) =
      (true, { c7wctx with npc := { c7wctx.npc with disinterest_signals := 1 } }) := by
  have h := (C7_disinterest (("tax law").toList) c7wctx (2/25)).2.1
  have hf : disinterest_fires (("tax law").toList) c7wctx := by
    constructor
    · trivial
    · intro hc
      exact absurd hc.1 (by norm_num [c7wctx])
  have hu : (2 : ℚ)/25 < disinterest_rate c7wctx := by
    norm_num [disinterest_rate, trigger_rate_for, c7wctx]
  simpa using h hf hu

lemma string_append_ne (n : String) {s t : String} (h : s ≠ t) :
    n ++ s ≠ n ++ t := by
  intro he
  apply h
  apply String.ext
  have hd := congrArg String.data he
  rw [String.data_append, String.data_append] at hd
  exact List.append_cancel_left hd

def scenario8 : InteractionContext :=
  { npc := { name := "Sam", bond := 0, failures_this_interaction := 1,
             type_modifiers := some { failure_tolerance_modifier := 0 } }
    player := {} }

/-- C8: `should_npc_exit` evaluates, in order with the first match
winning, (a) failure tolerance — the bond-tier base (bond<1→1, <2→2,
<3→2, <4→3, ≥4→4) plus the NPC's failure-tolerance modifier floored at
0, exiting once `failures_this_interaction` reaches it — then (b)
disinterest signals ≥ 3, then (c) receptiveness < 1; the three exit
messages are pairwise distinct; and at bond 0.0 with modifier 0 the
NPC exits on the very first failure through path (a). -/
theorem C8_termination (ctx : InteractionContext) (m : NPCTypeModifiers)
    (hm : ctx.npc.type_modifiers = some m) :
    should_npc_exit ctx =
      (if max 0 (base_failure_tolerance ctx.npc.bond + m.failure_tolerance_modifier) ≤
          (ctx.npc.failures_this_interaction : Int) then
        (true, ctx.npc.name ++ " politely wraps up the conversation and leaves.")
      else if 3 ≤ ctx.npc.disinterest_signals then
        (true, ctx.npc.name ++ " has lost interest and ends the conversation.")
      else if ctx.npc.receptiveness < 1 then
        (true, ctx.npc.name ++ " seems uncomfortable and makes an excuse to leave.")
      else (false, "")) ∧
    (∀ b : ℚ, b < 1 → base_failure_tolerance b = 1) ∧
    (∀ b : ℚ, 1 ≤ b → b < 2 → base_failure_tolerance b = 2) ∧
    (∀ b : ℚ, 2 ≤ b → b < 3 → base_failure_tolerance b = 2) ∧
    (∀ b : ℚ, 3 ≤ b → b < 4 → base_failure_tolerance b = 3) ∧
    (∀ b : ℚ, 4 ≤ b → base_failure_tolerance b = 4) ∧
    (ctx.npc.name ++ " politely wraps up the conversation and leaves." ≠
      ctx.npc.name ++ " has lost interest and ends the conversation.") ∧
    (ctx.npc.name ++ " politely wraps up the conversation and leaves." ≠
      ctx.npc.name ++ " seems uncomfortable and makes an excuse to leave.") ∧
    (ctx.npc.name ++ " has lost interest and ends the conversation." ≠
      ctx.npc.name ++ " seems uncomfortable and makes an excuse to leave.") ∧
    should_npc_exit scenario8 =
      (true, "Sam politely wraps up the conversation and leaves.") := by
  have hcan : can_tolerate_failure ctx.npc =
      decide ((ctx.npc.failures_this_interaction : Int) <
        max 0 (base_failure_tolerance ctx.npc.bond + m.failure_tolerance_modifier)) := by
    simp [can_tolerate_failure, adjust_failure_tolerance, hm]
  refine ⟨?_, ?_, ?_, ?_, ?_, ?_,
    string_append_ne _ (by decide), string_append_ne _ (by decide),
    string_append_ne _ (by decide), ?_⟩
  · rw [should_npc_exit, hcan]
    by_cases h : (ctx.npc.failures_this_interaction : Int) <
        max 0 (base_failure_tolerance ctx.npc.bond + m.failure_tolerance_modifier)
    · simp [h, not_le.mpr h]
    · simp [h, not_lt.mp h]
  · intro b hb; simp [base_failure_tolerance, hb]
  · intro b h1 h2
    rw [base_failure_tolerance, if_neg (by linarith), if_pos h2]
  · intro b h1 h2
    rw [base_failure_tolerance, if_neg (by linarith), if_neg (by linarith),
      if_pos h2]
  · intro b h1 h2
    rw [base_failure_tolerance, if_neg (by linarith), if_neg (by linarith),
      if_neg (by linarith), if_pos h2]
  · intro b h1
    rw [base_failure_tolerance, if_neg (by linarith), if_neg (by linarith),
      if_neg (by linarith), if_neg (by linarith)]
  · have h1 : can_tolerate_failure scenario8.npc = false := by
      norm_num [scenario8, can_tolerate_failure, adjust_failure_tolerance,
        base_failure_tolerance]
    rw [should_npc_exit, h1]
    rfl

theorem C8_termination_witness :
    should_npc_exit scenario8 =
      (true, "Sam politely wraps up the conversation and leaves.") :=
  (C8_termination scenario8 { failure_tolerance_modifier := 0 }
    rfl).2.2.2.2.2.2.2.2.2

section SetPatienceDomainProjections

variable (ctx : InteractionContext) (p d : ℚ)

@[simp] lemma spd_player : (set_patience_domain ctx p d).player = ctx.player := rfl

@[simp] lemma spd_momentum :
    (set_patience_domain ctx p d).momentum_bonus = ctx.momentum_bonus := rfl

@[simp] lemma spd_domain_active :
    (set_patience_domain ctx p d).domain_active = ctx.domain_active := rfl

@[simp] lemma spd_npc_name : (set_patience_domain ctx p d).npc.name = ctx.npc.name := rfl

@[simp] lemma spd_npc_background :
    (set_patience_domain ctx p d).npc.background = ctx.npc.background := rfl

@[simp] lemma spd_npc_receptiveness :
    (set_patience_domain ctx p d).npc.receptiveness = ctx.npc.receptiveness := rfl

@[simp] lemma spd_npc_bond : (set_patience_domain ctx p d).npc.bond = ctx.npc.bond := rfl

@[simp] lemma spd_npc_attraction :
    (set_patience_domain ctx p d).npc.attraction_level = ctx.npc.attraction_level := rfl

@[simp] lemma spd_npc_signals :
    (set_patience_domain ctx p d).npc.disinterest_signals =
      ctx.npc.disinterest_signals := rfl

end SetPatienceDomainProjections

/-- C10: the combined bundle's `conversation_patience` and
`domain_boost` fields are computed and stored but never read by the
resolution, mutation, disinterest or termination code: overwriting them
with arbitrary values (and equal random draws) leaves the success rate,
the success decision, the outcome classification, every state mutation
of `_apply_outcome` and of the disinterest consequence, the disinterest
trigger, and the termination decision (flag and message) unchanged. -/
theorem C10_noninterference (ctx : InteractionContext) (p d : ℚ) :
    (∀ (choice : DialogueChoice) (rolls : DomainRolls),
      resolve_success_rate choice (set_patience_domain ctx p d) rolls =
        resolve_success_rate choice ctx rolls) ∧
    (∀ (choice : DialogueChoice) (rolls : DomainRolls) (roll : Int),
      resolve_success choice (set_patience_domain ctx p d) rolls roll =
        resolve_success choice ctx rolls roll) ∧
    (∀ (choice : DialogueChoice) (succ : Bool) (r : ℚ),
      determine_outcome choice succ (set_patience_domain ctx p d) r =
        determine_outcome choice succ ctx r) ∧
    (∀ (out : ExchangeOutcome) (choice : DialogueChoice) (succ : Bool)
        (dr : OutcomeDraws),
      apply_outcome out choice (set_patience_domain ctx p d) succ dr =
        set_patience_domain (apply_outcome out choice ctx succ dr) p d) ∧
    (∀ (topic : List Char) (u : ℚ),
      (check_disinterest_trigger topic (set_patience_domain ctx p d) u).1 =
        (check_disinterest_trigger topic ctx u).1 ∧
      (check_disinterest_trigger topic (set_patience_domain ctx p d) u).2 =
        set_patience_domain (check_disinterest_trigger topic ctx u).2 p d) ∧
    ((apply_disinterest_consequence (set_patience_domain ctx p d)).1 =
      set_patience_domain (apply_disinterest_consequence ctx).1 p d ∧
     (apply_disinterest_consequence (set_patience_domain ctx p d)).2 =
       (apply_disinterest_consequence ctx).2) ∧
    should_npc_exit (set_patience_domain ctx p d) = should_npc_exit ctx := by
  have hds : ∀ topic : List Char,
      domain_skip topic (set_patience_domain ctx p d) = domain_skip topic ctx :=
    fun _ => rfl
  refine ⟨fun choice rolls => rfl, fun choice rolls roll => rfl,
    fun choice succ r => rfl, ?_, ?_, ?_, ?_⟩
  · intro out choice succ dr
    cases hm : ctx.npc.type_modifiers <;>
      simp [apply_outcome, apply_outcome_with, set_patience_domain, hm,
        adjust_battery_drain]
  · intro topic u
    unfold check_disinterest_trigger
    constructor <;> simp only [hds, spd_npc_bond, spd_npc_background,
      spd_npc_attraction, spd_player, spd_npc_signals] <;> split_ifs <;> rfl
  · unfold apply_disinterest_consequence
    constructor <;> simp only [spd_npc_signals] <;> split_ifs <;> rfl
  · cases hm : ctx.npc.type_modifiers <;>
      simp [should_npc_exit, can_tolerate_failure, set_patience_domain, hm,
        adjust_failure_tolerance]

end SocialRPG
